import Mathlib

/-!
Shallow embedding of the nlPDFedit frontend (React/TypeScript) for
verification of its natural-language specification.

Embedded source files:
  * `src/frontend/src/services/websocketService.ts` — two variants of the
    `WebSocketService` class (a socket.io based one, namespace `WSv1`, and a
    raw-WebSocket one with an explicit handler registry, namespace `WSv2`);
  * `src/frontend/src/services/apiService.ts` — the `handleError` helper;
  * `src/frontend/src/components/FileUpload.tsx` — client-side file
    validation on the select and drop paths;
  * `src/frontend/src/hooks/useSession.ts` — the `useSession` hook's
    `createNewSession` and the `useChat` hook's `sendMessage`,
    `retryLastMessage` and `clearHistory`;
  * the App component (the second document inside
    `src/frontend/tailwind.config.js`) — `handleNewSession`, the sole
    caller of `createNewSession`.

JavaScript string primitives used by the code are embedded explicitly over
`List Char`: `String.prototype.includes` as `jsIncludes`,
`String.prototype.trim` as `jsTrim`, and JS truthiness of an optional string
(absent and `""` are falsy) as `truthyStr`.
-/

/-- Predicate over char lists: `beginsWith p l` is true when the list `l`
starts with `p` (auxiliary for `jsIncludes`). -/
def beginsWith : List Char → List Char → Bool
  | [], _ => true
  | _ :: _, [] => false
  | p :: ps, c :: cs => p == c && beginsWith ps cs

/-- Substring occurrence over char lists: `containsSub pat l` is true when
`pat` occurs contiguously in `l` (auxiliary for `jsIncludes`). -/
def containsSub (pat : List Char) : List Char → Bool
  | [] => pat.isEmpty
  | c :: t => beginsWith pat (c :: t) || containsSub pat t

/-- JS `s.includes(pat)`: case-sensitive substring test. -/
def jsIncludes (s pat : String) : Bool := containsSub pat.data s.data

/-- Whitespace characters removed by JS `trim` (the ones relevant to this
code base: space, tab, newline, carriage return). -/
def isWhitespaceChar (c : Char) : Bool :=
  c == ' ' || c == '\t' || c == '\n' || c == '\r'

/-- Trim whitespace from both ends of a char list. -/
def trimChars (l : List Char) : List Char :=
  (((l.dropWhile isWhitespaceChar).reverse).dropWhile isWhitespaceChar).reverse

/-- JS `s.trim()`. -/
def jsTrim (s : String) : String := ⟨trimChars s.data⟩

/-- JS truthiness of an optional string value: `undefined`/absent and the
empty string are falsy; any other string is truthy (yielding itself). -/
def truthyStr : Option String → Option String
  | none => none
  | some s => if s = "" then none else some s

/-! ## Data model (`src/frontend/src/types` — `part_000`) -/

/-- The `message_type` field of `ChatMessage`:
`'user' | 'assistant' | 'system' | 'error'`. -/
inductive MessageType
  | user
  | assistant
  | system
  | error
deriving DecidableEq, Repr

/-- The `operation_result` object attached to some chat messages (only the
fields this code base writes: `status`, `error`, `show_retry`). -/
structure OperationResult where
  status : Option String
  error : Option String
  show_retry : Option Bool
deriving DecidableEq, Repr

/-- Record `ChatMessage` from `types/index.ts`:
`{ id, content, message_type, timestamp, session_id, operation_result? }`. -/
structure ChatMessage where
  id : String
  content : String
  message_type : MessageType
  timestamp : String
  session_id : String
  operation_result : Option OperationResult
deriving DecidableEq, Repr

namespace WSv1

/-!
First `WebSocketService` variant (socket.io based), `websocketService.ts`
lines 4–119.  Mutable fields of the class relevant to the reconnect logic:
`socket` (modelled by presence), `isConnected`, `reconnectAttempts`.
-/

/-- Mutable state of the socket.io `WebSocketService`. -/
structure State where
  socketPresent : Bool
  isConnected : Bool
  reconnectAttempts : Nat
deriving DecidableEq, Repr

/-- Field `maxReconnectAttempts`: `private maxReconnectAttempts: number = 5`. -/
def maxReconnectAttempts : Nat := 5

/-- Outcome of a `handleReconnect` call: the updated state, whether a retry
was scheduled via `setTimeout`, and the delay (in milliseconds) passed to
`setTimeout` when one was. -/
structure ReconnectResult where
  state : State
  scheduled : Bool
  delayMs : Option Nat
deriving DecidableEq, Repr

/-- Method `handleReconnect` (lines 60–73): if `reconnectAttempts <
maxReconnectAttempts`, increment the counter and schedule a retry after
`1000 * this.reconnectAttempts` milliseconds (the code's comment calls this
"Exponential backoff" but the expression is linear in the attempt number);
otherwise log "Max reconnection attempts reached" and schedule nothing. -/
def handleReconnect (s : State) : ReconnectResult :=
  if s.reconnectAttempts < maxReconnectAttempts then
    let s2 := { s with reconnectAttempts := s.reconnectAttempts + 1 }
    { state := s2, scheduled := true, delayMs := some (1000 * s2.reconnectAttempts) }
  else
    { state := s, scheduled := false, delayMs := none }

/-- The `'disconnect'` event handler (lines 32–36): clear `isConnected`,
then call `handleReconnect`. -/
def onDisconnect (s : State) : ReconnectResult :=
  handleReconnect { s with isConnected := false }

/-- The `'connect'` event handler (lines 25–30): set `isConnected`, reset
`reconnectAttempts` to 0 (and resolve the promise). -/
def onConnect (s : State) : State :=
  { s with isConnected := true, reconnectAttempts := 0 }

/-- The `'connect_error'` handler (lines 38–44): the in-flight `connect`
promise is rejected iff `this.reconnectAttempts === 0` at the time of the
error. -/
def connectErrorRejects (s : State) : Bool :=
  s.reconnectAttempts == 0

/-- Number of reconnects actually scheduled across `n` consecutive
transport-close events with no intervening successful connection. -/
def scheduledCount : Nat → State → Nat
  | 0, _ => 0
  | n + 1, s =>
    let r := onDisconnect s
    (if r.scheduled then 1 else 0) + scheduledCount n r.state

/-- A freshly connected client: socket present, connected, zero reconnect
attempts (the state right after a successful `connect`). -/
def freshState : State :=
  { socketPresent := true, isConnected := true, reconnectAttempts := 0 }

end WSv1

namespace WSv2

/-!
Second `WebSocketService` variant (raw `WebSocket`, explicit handler
arrays), `websocketService.ts` lines 119–191.
-/

/-- Mutable state of the raw-WebSocket service: `ws` (modelled by
presence) and the two handler registries, each a list of handler
identities. -/
structure State where
  wsPresent : Bool
  messageHandlers : List Nat
  errorHandlers : List Nat
deriving DecidableEq, Repr

/-- Method `onMessage` (lines 159–161): push onto `messageHandlers`. -/
def onMessage (h : Nat) (s : State) : State :=
  { s with messageHandlers := s.messageHandlers ++ [h] }

/-- Method `onError` (lines 163–165): push onto `errorHandlers`. -/
def onError (h : Nat) (s : State) : State :=
  { s with errorHandlers := s.errorHandlers ++ [h] }

/-- Method `removeAllListeners` (lines 167–170): empty both registries. -/
def removeAllListeners (s : State) : State :=
  { s with messageHandlers := [], errorHandlers := [] }

/-- Method `disconnect` (lines 180–186): close and null the transport if present,
then — unconditionally — call `this.removeAllListeners()`. -/
def disconnect (s : State) : State :=
  removeAllListeners { s with wsPresent := false }

end WSv2

namespace Upload

/-!
Embedding of `FileUpload.tsx` client-side validation (lines 15–53).
-/

/-- The fields of a browser `File` the validation reads: MIME `type` and
`size` in bytes. -/
structure FileMeta where
  type : String
  size : Nat
deriving DecidableEq, Repr

/-- What a validation path does: set an error banner (no upload), or call
`uploadFile` (which issues the network request). -/
inductive UploadAction
  | setError (msg : String)
  | upload (f : FileMeta)
deriving DecidableEq, Repr

/-- The 10 MB size limit: `10 * 1024 * 1024`. -/
def maxFileSize : Nat := 10 * 1024 * 1024

/-- Handler `handleFileSelect` (lines 15–32): no file → nothing; then reject when
`!file.type.includes('pdf')`; then reject when `file.size > 10*1024*1024`;
otherwise upload. -/
def handleFileSelect (file : Option FileMeta) : Option UploadAction :=
  match file with
  | none => none
  | some f =>
    if !(jsIncludes f.type "pdf") then
      some (UploadAction.setError "Please select a PDF file")
    else if f.size > maxFileSize then
      some (UploadAction.setError "File size must be less than 10MB")
    else
      some (UploadAction.upload f)

/-- Handler `handleDrop` (lines 39–53): find the first dropped file whose `type`
includes `'pdf'`; none → error banner; otherwise upload that file directly
(note: no size check on this path). -/
def handleDrop (files : List FileMeta) : UploadAction :=
  match files.find? (fun f => jsIncludes f.type "pdf") with
  | none => UploadAction.setError "Please drop a PDF file"
  | some f => UploadAction.upload f

end Upload

namespace ApiErr

/-!
Embedding of the `handleError` helper of `apiService.ts` (lines 118–125).
-/

/-- One element of a backend `detail` array: `{ msg: string }`. -/
structure DetailItem where
  msg : String
deriving DecidableEq, Repr

/-- The `data` payload of an error response; the backend shapes the spec
names are `{error}` and `{detail: [{msg}]}`. -/
structure RespData where
  error : Option String
  detail : Option (List DetailItem)
deriving DecidableEq, Repr

/-- The `response` object of an axios error. -/
structure ErrResponse where
  data : Option RespData
deriving DecidableEq, Repr

/-- The error value `handleError` receives: optional `response` and
optional `message`. -/
structure ErrInput where
  response : Option ErrResponse
  message : Option String
deriving DecidableEq, Repr

/-- Method `handleError`:
`if (error.response?.data?.error) return error.response.data.error;
else if (error.message) return error.message;
return 'An unexpected error occurred';`
The optional-chaining test is JS truthiness, embedded by `truthyStr`.
Note the `detail` field is never read. -/
def handleError (e : ErrInput) : String :=
  match truthyStr ((e.response.bind (fun r => r.data)).bind (fun d => d.error)) with
  | some s => s
  | none =>
    match truthyStr e.message with
    | some m => m
    | none => "An unexpected error occurred"

/-- The concrete input of the claim: `{response:{data:{detail:[{msg:"a"},
{msg:"b"}]}}}` — no `error` field, no `message`. -/
def detailInput : ErrInput :=
  { response := some { data := some { error := none, detail := some [{ msg := "a" }, { msg := "b" }] } },
    message := none }

end ApiErr

namespace Chat

/-!
Embedding of the `useChat` hook, `useSession.ts` lines 32–129.  React
state: `messages`, `isLoading`, `error`.
-/

/-- The `useChat` hook's state triple. -/
structure ChatState where
  messages : List ChatMessage
  isLoading : Bool
  error : Option String
deriving DecidableEq, Repr

/-- The optimistic user message `sendMessage` builds (lines 56–62):
`{ id: Date.now().toString(), content: content.trim(), message_type:
'user', timestamp: new Date().toISOString(), session_id: sessionId }`.
`now` is the `Date.now()` value, `timestamp` the ISO string. -/
def optimisticMsg (sessionId content : String) (now : Nat) (timestamp : String) : ChatMessage :=
  { id := toString now
    content := jsTrim content
    message_type := MessageType.user
    timestamp := timestamp
    session_id := sessionId
    operation_result := none }

/-- Result of the synchronous prefix of `sendMessage` (everything that runs
before the `await` of the network call, lines 49–64): the transcript after
the optimistic append, whether the backend request is issued, and the
content submitted to it. -/
structure SendPhase where
  messages : List ChatMessage
  networkCalled : Bool
  requestContent : Option String
deriving DecidableEq, Repr

/-- Function `sendMessage` up to the network call (lines 49–64):
`if (!sessionId || !content.trim()) return;` then append the optimistic
user message and issue the request with the trimmed content. -/
def sendMessagePhase1 (sessionId content : String) (now : Nat) (timestamp : String)
    (messages : List ChatMessage) : SendPhase :=
  if sessionId = "" ∨ jsTrim content = "" then
    { messages := messages, networkCalled := false, requestContent := none }
  else
    { messages := messages ++ [optimisticMsg sessionId content now timestamp]
      networkCalled := true
      requestContent := some (jsTrim content) }

/-- Embedding of line 99: reverse the transcript and find the first
user-typed message, i.e. the most recent user message. -/
def findLastUser (messages : List ChatMessage) : Option ChatMessage :=
  messages.reverse.find? (fun m => m.message_type == MessageType.user)

/-- Result of `retryLastMessage` (lines 98–105): the transcript after the
filtering `setMessages` (before the resubmission's own appends), and the
content handed to `sendMessage` when a user message was found. -/
structure RetryResult where
  messages : List ChatMessage
  resubmitted : Option String
deriving DecidableEq, Repr

/-- Function `retryLastMessage` (lines 98–105): find the most recent user message;
if found, `setMessages(prev => prev.filter(msg => msg.message_type !==
'error'))` — all error messages, trailing or not — and call
`sendMessage(lastUserMessage.content)`; otherwise do nothing. -/
def retryLastMessage (messages : List ChatMessage) : RetryResult :=
  match findLastUser messages with
  | some u =>
    { messages := messages.filter (fun m => m.message_type != MessageType.error)
      resubmitted := some u.content }
  | none => { messages := messages, resubmitted := none }

/-- Function `clearHistory` (lines 107–118): no-op on empty session id; otherwise
call the backend; on success `setMessages([]); setError(null)`; on failure
only `setError(handleError(err))` (`errMsg` is that extracted string).
`backendOk` tells whether the awaited request succeeded. -/
def clearHistory (sessionId : String) (backendOk : Bool) (errMsg : String)
    (s : ChatState) : ChatState :=
  if sessionId = "" then s
  else if backendOk then { s with messages := [], error := none }
  else { s with error := some errMsg }

end Chat

namespace Session

/-!
Embedding of the `useSession` hook (`useSession.ts` lines 4–28) and of its
sole caller, the App component's `handleNewSession` (the App source is the
second document inside `tailwind.config.js`, lines 73–77).
-/

/-- Environment of the session hook: the local-storage value under
`'pdf_chat_session_id'`, the React `sessionId` state, and whether the
application has been reloaded via `window.location.reload()`. -/
structure SessionEnv where
  storedId : Option String
  sessionId : String
  reloaded : Bool
deriving DecidableEq, Repr

/-- Function `createNewSession` (lines 20–25): generate a fresh id (`uuidv4()`,
passed in as `newId`), `localStorage.setItem('pdf_chat_session_id',
newSessionId)`, `setSessionId(newSessionId)`, and return it.  The hook
itself issues no reload; the reload happens at its sole call site,
`handleNewSession` below. -/
def createNewSession (newId : String) (env : SessionEnv) : SessionEnv × String :=
  ({ storedId := some newId, sessionId := newId, reloaded := env.reloaded }, newId)

/-- Application-level state around the hook: the session environment plus
the App component's `files` state (as the list of file ids). -/
structure AppState where
  env : SessionEnv
  files : List String
deriving DecidableEq, Repr

/-- Handler `handleNewSession` of the App component, the only caller of
`createNewSession` in the program (`tailwind.config.js` lines 73–77):
`createNewSession(); setFiles([]); window.location.reload();` — the comment
there reads "Simple way to reset the entire app state".  The reload is
modelled by setting the `reloaded` flag. -/
def handleNewSession (newId : String) (a : AppState) : AppState :=
  let env2 := (createNewSession newId a.env).1
  { env := { env2 with reloaded := true }, files := [] }

end Session

/-! ## Concrete transcripts used by the `retryLastMessage` analysis -/

/-- A user message "a". -/
def exU1 : ChatMessage :=
  { id := "1", content := "a", message_type := MessageType.user,
    timestamp := "t1", session_id := "s", operation_result := none }

/-- An error message occurring between two user messages (non-trailing). -/
def exE1 : ChatMessage :=
  { id := "2", content := "Error: first failure", message_type := MessageType.error,
    timestamp := "t2", session_id := "s",
    operation_result := some { status := some "error", error := some "first failure", show_retry := some true } }

/-- A later user message "b". -/
def exU2 : ChatMessage :=
  { id := "3", content := "b", message_type := MessageType.user,
    timestamp := "t3", session_id := "s", operation_result := none }

/-- A trailing error message. -/
def exE2 : ChatMessage :=
  { id := "4", content := "Error: second failure", message_type := MessageType.error,
    timestamp := "t4", session_id := "s",
    operation_result := some { status := some "error", error := some "second failure", show_retry := some true } }

/-- A transcript with a non-trailing error (`exE1`) and a trailing one
(`exE2`). -/
def exTranscript : List ChatMessage := [exU1, exE1, exU2, exE2]

/-! ## Theorems -/

/-- Helper: across `n` consecutive transport closes the number of scheduled
reconnects is `min n (cap - attempts)`. -/
theorem WSv1.scheduledCount_linear (n : Nat) (s : WSv1.State) :
    WSv1.scheduledCount n s = min n (WSv1.maxReconnectAttempts - s.reconnectAttempts) := by
  induction n generalizing s with
  | zero => simp [WSv1.scheduledCount]
  | succ n ih =>
    unfold WSv1.scheduledCount WSv1.onDisconnect WSv1.handleReconnect
    split
    next h =>
      simp [ih, WSv1.maxReconnectAttempts] at h ⊢
      omega
    next h =>
      simp [ih, WSv1.maxReconnectAttempts] at h ⊢
      omega

/-- C1 (code bug): on the first transport drop from a fresh connection the
code schedules the retry after `1000 * attempt = 1000` ms — the delay is
linear in the attempt number — and not after the `2 ^ 1` seconds = 2000 ms
that the claim and the code's own "Exponential backoff" comment state. -/
theorem C1_backoff_linear_not_exponential :
    (WSv1.onDisconnect WSv1.freshState).delayMs = some 1000
    ∧ 2 ^ 1 * 1000 = 2000
    ∧ (1000 : Nat) ≠ 2000 := by decide

/-- C2: starting from a zero attempt counter, any sequence of `n` transport
closes without an intervening successful connection schedules at most 5
reconnects; once the counter has reached the cap of 5, no further close
event ever schedules a reconnect. -/
theorem C2_reconnect_cap_five (n m : Nat) (s t : WSv1.State)
    (hs : s.reconnectAttempts = 0) (ht : t.reconnectAttempts = WSv1.maxReconnectAttempts) :
    WSv1.scheduledCount n s ≤ 5 ∧ WSv1.scheduledCount m t = 0 := by
  constructor
  · rw [WSv1.scheduledCount_linear, hs]
    simp [WSv1.maxReconnectAttempts]
  · rw [WSv1.scheduledCount_linear, ht]
    simp

/-- C2 witness: seven drops from a fresh client schedule at most five
reconnects, and a client whose counter already sits at the cap schedules
none across three further drops. -/
theorem C2_reconnect_cap_five_witness :
    WSv1.scheduledCount 7 WSv1.freshState ≤ 5
    ∧ WSv1.scheduledCount 3 { socketPresent := false, isConnected := false, reconnectAttempts := 5 } = 0 :=
  C2_reconnect_cap_five 7 3 WSv1.freshState
    { socketPresent := false, isConnected := false, reconnectAttempts := 5 } rfl rfl

/-- C3 counterexample: a dropped file of MIME type `application/pdf` and
size `10 * 1024 * 1024 + 1` bytes passes the drop path's type-only check
and is handed to `uploadFile` — a network upload call is issued even though
the size exceeds the 10 MB limit, so the drag-and-drop path does not reject
every oversized file. -/
theorem C3_counterexample_oversized_drop_uploads :
    Upload.handleDrop [{ type := "application/pdf", size := Upload.maxFileSize + 1 }]
      = Upload.UploadAction.upload { type := "application/pdf", size := Upload.maxFileSize + 1 }
    ∧ Upload.maxFileSize + 1 > Upload.maxFileSize := by
  constructor
  · decide
  · decide

/-- C3 amended: on the file-select path a file with a non-PDF MIME type or
size over 10 MB is rejected with an error banner and no upload; on the
drag-and-drop path only the type is checked — a drop containing no
PDF-typed file is rejected, while a PDF-typed file is uploaded regardless
of its size. -/
theorem C3_amended_upload_validation (f : Upload.FileMeta) (files : List Upload.FileMeta)
    (hf : jsIncludes f.type "pdf" = false ∨ Upload.maxFileSize < f.size)
    (hfiles : ∀ g ∈ files, jsIncludes g.type "pdf" = false) :
    (∃ msg, Upload.handleFileSelect (some f) = some (Upload.UploadAction.setError msg))
    ∧ Upload.handleDrop files = Upload.UploadAction.setError "Please drop a PDF file" := by
  constructor
  · rcases hf with h | h
    · exact ⟨"Please select a PDF file", by simp [Upload.handleFileSelect, h]⟩
    · by_cases ht : jsIncludes f.type "pdf"
      · exact ⟨"File size must be less than 10MB", by simp [Upload.handleFileSelect, ht, h]⟩
      · exact ⟨"Please select a PDF file", by simp [Upload.handleFileSelect, ht]⟩
  · unfold Upload.handleDrop
    have hnone : files.find? (fun g => jsIncludes g.type "pdf") = none := by
      rw [List.find?_eq_none]
      intro x hx
      simp [hfiles x hx]
    rw [hnone]

/-- C3 witness: a plain-text file is rejected on the select path, and a
drop containing only a PNG is rejected on the drop path. -/
theorem C3_amended_upload_validation_witness :
    (∃ msg, Upload.handleFileSelect (some { type := "text/plain", size := 5 })
      = some (Upload.UploadAction.setError msg))
    ∧ Upload.handleDrop [{ type := "image/png", size := 3 }]
      = Upload.UploadAction.setError "Please drop a PDF file" :=
  C3_amended_upload_validation { type := "text/plain", size := 5 }
    [{ type := "image/png", size := 3 }] (Or.inl (by decide)) (by decide)

/-- C4 counterexample: on `{response:{data:{detail:[{msg:"a"},{msg:"b"}]}}}`
`handleError` returns the generic fallback string, not `"a, b"` — the
`detail` array shape is never consulted by the code. -/
theorem C4_counterexample_detail_ignored :
    ApiErr.handleError ApiErr.detailInput = "An unexpected error occurred"
    ∧ "An unexpected error occurred" ≠ "a, b" := by decide

/-- C4 amended: `handleError` ignores the `detail` array entirely — any
input whose response data has no truthy `error` field and no `message`
yields the generic fallback (in particular the detail-array input of the
claim); an error with message `"x"` and no response yields `"x"`; an input
with neither shape yields the fallback. -/
theorem C4_amended_handle_error (d : List ApiErr.DetailItem) :
    ApiErr.handleError
        { response := some { data := some { error := none, detail := some d } }, message := none }
      = "An unexpected error occurred"
    ∧ ApiErr.handleError { response := none, message := some "x" } = "x"
    ∧ ApiErr.handleError { response := none, message := none } = "An unexpected error occurred" :=
  ⟨rfl, rfl, rfl⟩

/-- C5 counterexample: on the transcript `[user "a", error, user "b",
error]` the code's `retryLastMessage` removes the non-trailing error
message `exE1` as well, while the claim states that only the trailing
error message is stripped and `exE1` is left in place. -/
theorem C5_counterexample_nontrailing_error_removed :
    (Chat.retryLastMessage exTranscript).messages = [exU1, exU2]
    ∧ exE1 ∈ exTranscript
    ∧ exE1 ∉ (Chat.retryLastMessage exTranscript).messages := by decide

/-- Helper: reverse-find of the user predicate over a transcript whose
suffix after `u` contains no user message returns `u`. -/
theorem Chat.findLastUser_append (l1 l2 : List ChatMessage) (u : ChatMessage)
    (hu : u.message_type = MessageType.user)
    (h2 : ∀ m ∈ l2, m.message_type ≠ MessageType.user) :
    Chat.findLastUser (l1 ++ u :: l2) = some u := by
  unfold Chat.findLastUser
  have h2r : List.find? (fun m => m.message_type == MessageType.user) l2.reverse = none := by
    rw [List.find?_eq_none]
    intro x hx
    simp only [List.mem_reverse] at hx
    simp [h2 x hx]
  rw [List.reverse_append, List.reverse_cons, List.append_assoc, List.find?_append, h2r,
    Option.none_or, List.singleton_append, List.find?_cons_of_pos _ (by simp [hu])]

/-- C5 amended: when the transcript contains a user message,
`retryLastMessage` removes all error messages — wherever they occur — and
resubmits exactly the content of the most recent user message; on a
transcript with no user message it does nothing. -/
theorem C5_amended_retry_strips_all_errors (l1 l2 msgs : List ChatMessage) (u : ChatMessage) :
    (u.message_type = MessageType.user →
      (∀ m ∈ l2, m.message_type ≠ MessageType.user) →
      (Chat.retryLastMessage (l1 ++ u :: l2)).resubmitted = some u.content
      ∧ (Chat.retryLastMessage (l1 ++ u :: l2)).messages
          = (l1 ++ u :: l2).filter (fun m => m.message_type != MessageType.error)
      ∧ ∀ m ∈ (Chat.retryLastMessage (l1 ++ u :: l2)).messages,
          m.message_type ≠ MessageType.error)
    ∧ ((∀ m ∈ msgs, m.message_type ≠ MessageType.user) →
      Chat.retryLastMessage msgs = { messages := msgs, resubmitted := none }) := by
  constructor
  · intro hu h2
    have hf := Chat.findLastUser_append l1 l2 u hu h2
    unfold Chat.retryLastMessage
    rw [hf]
    refine ⟨rfl, rfl, ?_⟩
    intro m hm
    simp only [List.mem_filter, bne_iff_ne, ne_eq] at hm
    exact hm.2
  · intro h
    have hf : Chat.findLastUser msgs = none := by
      unfold Chat.findLastUser
      rw [List.find?_eq_none]
      intro x hx
      simp only [List.mem_reverse] at hx
      simp [h x hx]
    unfold Chat.retryLastMessage
    rw [hf]

/-- C5 witness: on the four-message transcript the retry resubmits `"b"`
(the most recent user content) and keeps exactly the non-error messages;
on a transcript holding only an error message it does nothing. -/
theorem C5_amended_retry_witness :
    (Chat.retryLastMessage exTranscript).resubmitted = some exU2.content
    ∧ (Chat.retryLastMessage exTranscript).messages
        = exTranscript.filter (fun m => m.message_type != MessageType.error)
    ∧ (∀ m ∈ (Chat.retryLastMessage exTranscript).messages,
        m.message_type ≠ MessageType.error)
    ∧ Chat.retryLastMessage [exE1] = { messages := [exE1], resubmitted := none } := by
  have h := C5_amended_retry_strips_all_errors [exU1, exE1] [exE2] [exE1] exU2
  have h1 := h.1 (by decide) (by decide)
  exact ⟨h1.1, h1.2.1, h1.2.2, h.2 (by decide)⟩

/-- C6: with a non-empty session id and an input whose trimmed form is
non-empty, `sendMessage` appends exactly one optimistic user message — id
the current timestamp rendered as a string, content the trimmed input —
before the network call, which is then issued with the trimmed content;
with a blank input or a missing session id it appends nothing and makes no
network call. -/
theorem C6_send_message_optimistic (sessionId content : String) (now : Nat) (ts : String)
    (msgs : List ChatMessage) :
    (sessionId ≠ "" → jsTrim content ≠ "" →
      Chat.sendMessagePhase1 sessionId content now ts msgs
        = { messages := msgs ++ [Chat.optimisticMsg sessionId content now ts],
            networkCalled := true, requestContent := some (jsTrim content) })
    ∧ ((sessionId = "" ∨ jsTrim content = "") →
      Chat.sendMessagePhase1 sessionId content now ts msgs
        = { messages := msgs, networkCalled := false, requestContent := none }) := by
  constructor
  · intro h1 h2
    unfold Chat.sendMessagePhase1
    rw [if_neg (fun h => h.elim h1 h2)]
  · intro h
    unfold Chat.sendMessagePhase1
    rw [if_pos h]

/-- C6 witness: sending `" hello "` in session `"sess"` at time 42 appends
the single optimistic user message and issues the request with the trimmed
content. -/
theorem C6_send_message_optimistic_witness :
    Chat.sendMessagePhase1 "sess" " hello " 42 "2026-01-01T00:00:00Z" []
      = { messages := [Chat.optimisticMsg "sess" " hello " 42 "2026-01-01T00:00:00Z"],
          networkCalled := true, requestContent := some (jsTrim " hello ") } :=
  (C6_send_message_optimistic "sess" " hello " 42 "2026-01-01T00:00:00Z" []).1
    (by decide) (by decide)

/-- C7: the transport connection-error handler rejects the pending
`connect` promise exactly when the reconnect-attempt counter is zero (the
first attempt); after any transport close the counter is at least one, so a
connection error during the scheduled automatic reconnect never rejects —
the attempt is fire-and-forget. -/
theorem C7_connect_rejects_only_first_attempt (s : WSv1.State) :
    (WSv1.connectErrorRejects s = true ↔ s.reconnectAttempts = 0)
    ∧ WSv1.connectErrorRejects (WSv1.onDisconnect s).state = false := by
  constructor
  · simp [WSv1.connectErrorRejects]
  · unfold WSv1.connectErrorRejects WSv1.onDisconnect WSv1.handleReconnect
    by_cases h : s.reconnectAttempts < WSv1.maxReconnectAttempts
    · simp [h]
    · simp [h, beq_eq_false_iff_ne]
      simp [WSv1.maxReconnectAttempts] at h
      omega

/-- C8 counterexample: for a client with a registered message handler and a
registered error handler, `disconnect` empties the handler registry — it is
not left unchanged as the claim states. -/
theorem C8_counterexample_disconnect_clears_registry :
    (WSv2.disconnect { wsPresent := true, messageHandlers := [1], errorHandlers := [2] }).messageHandlers = []
    ∧ (WSv2.State.mk true [1] [2]).messageHandlers ≠ [] := by decide

/-- C8 amended: `disconnect` closes the transport and also clears the
handler registry — it calls `removeAllListeners` itself, so after any
`disconnect` both registries are empty and the transport is closed. -/
theorem C8_amended_disconnect_clears (s : WSv2.State) :
    WSv2.disconnect s
      = { wsPresent := false, messageHandlers := [], errorHandlers := [] } := by
  cases s
  rfl

/-- C9: every call to `createNewSession` — its sole call site in the
program is the App component's `handleNewSession` — overwrites the
persisted session-id key with the freshly generated id, updates the
in-memory session id, and forces a full application state reset: the files
state is emptied and the application reloads. -/
theorem C9_create_new_session_reloads (newId : String) (a : Session.AppState) :
    (Session.handleNewSession newId a).env.storedId = some newId
    ∧ (Session.handleNewSession newId a).env.sessionId = newId
    ∧ (Session.handleNewSession newId a).env.reloaded = true
    ∧ (Session.handleNewSession newId a).files = [] :=
  ⟨rfl, rfl, rfl, rfl⟩

/-- C10: for a non-empty session id, a failed backend clear-history request
leaves the transcript untouched and only sets the error banner, while a
successful one replaces the transcript by the empty list and clears the
banner. -/
theorem C10_clear_history_atomic (sessionId errMsg : String) (s : Chat.ChatState)
    (h : sessionId ≠ "") :
    Chat.clearHistory sessionId false errMsg s = { s with error := some errMsg }
    ∧ Chat.clearHistory sessionId true errMsg s = { s with messages := [], error := none } := by
  unfold Chat.clearHistory
  rw [if_neg h, if_neg h]
  exact ⟨rfl, rfl⟩

/-- C10 witness: clearing in session `"sess"` with a failing backend keeps
the one-message transcript and records the error; with a succeeding backend
it empties the transcript. -/
theorem C10_clear_history_atomic_witness :
    Chat.clearHistory "sess" false "boom" { messages := [exU1], isLoading := false, error := none }
      = { messages := [exU1], isLoading := false, error := some "boom" }
    ∧ Chat.clearHistory "sess" true "boom" { messages := [exU1], isLoading := false, error := none }
      = { messages := [], isLoading := false, error := none } :=
  C10_clear_history_atomic "sess" "boom"
    { messages := [exU1], isLoading := false, error := none } (by decide)
